import Mathlib

/-!
Shallow embedding of the PyPy STM transactional-execution controller
found in rpython/translator/stm/src_stm/stmgcintf.c (64-bit build).

Thread-local C variables become fields of an explicit state record
`TState`; `uintptr_t` values are `Nat` (always stored reduced modulo
2^64 via `toUptr`), `long` values are `Int` with explicit conversions
(`toSigned` models the C cast from `uintptr_t` to `long`).  Calls into
the external STM heap engine (stm_commit_transaction and friends) do
not touch the thread-local fields modelled here; where relevant they
are recorded as events of type `Ev`.
-/

namespace StmGcIntf

/-- Modulus of a 64-bit machine word. -/
def WORD_MOD : Nat := 2 ^ 64

/-- Value of the C expression `(uintptr_t)-1`, the "unlimited" sentinel
stored in the nursery low fill mark while a thread is atomic. -/
def sentinel : Nat := 2 ^ 64 - 1

/-- Reinterpretation of a 64-bit unsigned value as a signed `long`,
modelling the C cast `(long)x`. -/
def toSigned (x : Nat) : Int :=
  if x < 2 ^ 63 then (x : Int) else (x : Int) - 2 ^ 64

/-- Storage of an integer into a `uintptr_t` variable: reduce modulo 2^64. -/
def toUptr (x : Int) : Nat := (x % (2 ^ 64 : Int)).toNat

/-- Arithmetic shift right by `k` bits of a signed `long`, i.e. floor
division by 2^k (Lean division on `Int` is euclidean, which coincides
with floor division for the positive divisor 2^k). -/
def sar (x : Int) (k : Nat) : Int := x / (2 ^ k : Int)

/-- Truncation of a rational toward zero, modelling the C cast from
`double` to `long` (the double arithmetic itself is modelled exactly
over the rationals). -/
def ratTrunc (q : ℚ) : Int := Int.tdiv q.num (q.den : Int)

/-- Per-thread controller state: the thread-local C variables of
stmgcintf.c together with the two compile-time engine constants the
file reads (`_stm_nursery_start` and `NURSERY_SIZE`).
Field correspondence:
`ready_atomic` = `pypy_stm_ready_atomic` (0 = not initialized,
1 = normal mode, 2 or more = atomic mode);
`low_fill_mark` = `pypy_stm_nursery_low_fill_mark` (uintptr_t);
`low_fill_mark_saved` = `pypy_stm_nursery_low_fill_mark_saved`;
`transaction_length` = `pypy_transaction_length` (static long);
`last_abort_bytes` = `stm_thread_local.last_abort__bytes_in_nursery`;
`nursery_start` = `_stm_nursery_start`; `nursery_size` = `NURSERY_SIZE`. -/
structure TState where
  ready_atomic : Int
  low_fill_mark : Nat
  low_fill_mark_saved : Nat
  transaction_length : Int
  last_abort_bytes : Int
  nursery_start : Nat
  nursery_size : Nat
deriving DecidableEq, Repr

/-- Engine-directed events emitted by the controller (calls into the
external STM heap engine and registration bookkeeping).
`commitAt r` records an unconditional `stm_commit_transaction()` call
issued while `pypy_stm_ready_atomic` equals `r`. -/
inductive Ev where
  | registerThread
  | unregisterThread
  | startInevitableIfNotAtomic
  | commitIfNotAtomic
  | commitAt (ready : Int)
  | becomeInevitable (msg : String)
deriving DecidableEq, Repr

/-- Constant `LOW_FILL_MARK` from stmgcintf.c line 59. -/
def LOW_FILL_MARK : Int := 400000

/-- Function `stmcb_commit_soon` (lines 38-49): commit-soon pressure
callback.  If the fill mark is the unlimited sentinel (atomic), clear
the saved fill mark when it is positive as a signed long; otherwise
clear the active fill mark when it is positive as a signed long. -/
def stmcb_commit_soon (s : TState) : TState :=
  if s.low_fill_mark = sentinel then
    if 0 < toSigned s.low_fill_mark_saved then
      { s with low_fill_mark_saved := 0 }
    else s
  else if 0 < toSigned s.low_fill_mark then
    { s with low_fill_mark := 0 }
  else s

/-- Function `pypy_stm_set_transaction_length` (lines 64-72): the C
code computes `(long)(LOW_FILL_MARK * fraction)` in double precision
(modelled exactly over ℚ with truncation toward zero) and clamps it
above at `NURSERY_SIZE * 3 / 4`. -/
def pypy_stm_set_transaction_length (s : TState) (fraction : ℚ) : TState :=
  let low0 : Int := ratTrunc ((LOW_FILL_MARK : ℚ) * fraction)
  let cap : Int := ((s.nursery_size * 3 / 4 : Nat) : Int)
  let low : Int := if cap < low0 then cap else low0
  { s with transaction_length := low }

/-- Retry shrink step from line 151 of stmgcintf.c:
`limit -= (limit >> 4)`. -/
def shrink_step (x : Int) : Int := x - sar x 4

/-- Iterated application of `shrink_step`, one application per
simulated abort. -/
def shrink_iter (x : Int) : Nat → Int
  | 0 => x
  | n + 1 => shrink_step (shrink_iter x n)

/-- Function `_pypy_stm_initialize_nursery_low_fill_mark`
(lines 129-156, non-HTM branch; the name is shortened here).  If
`v_counter == 0` the limit is the configured transaction length,
otherwise it is the last abort consumption shrunk by 1/16; the fill
mark becomes `_stm_nursery_start + limit` as a `uintptr_t`. -/
def _pypy_stm_init_nursery_low_fill_mark (s : TState) (v_counter : Int) : TState :=
  let limit : Int :=
    if v_counter = 0 then s.transaction_length
    else shrink_step s.last_abort_bytes
  { s with low_fill_mark := toUptr ((s.nursery_start : Int) + limit) }

/-- Function `pypy_stm_start_transaction` (lines 158-168): sets the
fill mark to 1, asks the engine to start a transaction (no effect on
the fields modelled here), computes the fill mark from the current
`*v_counter`, increments `*v_counter`, and resets the atomic counter
to 1.  Returns the new state and the new value of `*v_counter`. -/
def pypy_stm_start_transaction (s : TState) (v_counter : Int) : TState × Int :=
  let s1 : TState := { s with low_fill_mark := 1 }
  let s2 : TState := _pypy_stm_init_nursery_low_fill_mark s1 v_counter
  ({ s2 with ready_atomic := 1 }, v_counter + 1)

/-- Function `_pypy_stm_inev_state` (lines 241-258): shrink the margin
of the active fill mark (normal mode) or of the saved fill mark
(atomic mode) above `_stm_nursery_start` to a quarter of its previous
value. -/
def _pypy_stm_inev_state (s : TState) : TState :=
  if s.ready_atomic = 1 then
    let t : Int := toSigned s.low_fill_mark
    { s with low_fill_mark :=
        toUptr ((s.nursery_start : Int) + sar (t - toSigned s.nursery_start) 2) }
  else
    let t : Int := toSigned s.low_fill_mark_saved
    { s with low_fill_mark_saved :=
        toUptr ((s.nursery_start : Int) + sar (t - toSigned s.nursery_start) 2) }

/-- Function `_pypy_stm_become_inevitable` (lines 260-267): first apply
the `_pypy_stm_inev_state` shrink, then ask the engine to become
inevitable; a NULL message (modelled as `none`) is replaced by the
default string.  Returns the new state and the message sent to the
engine. -/
def _pypy_stm_become_inevitable (s : TState) (msg : Option String) : TState × String :=
  (_pypy_stm_inev_state s, msg.getD ("return from JITted function"))

/-- Function `pypy_stm_enter_callback_call` (lines 92-109).  For a
thread seen for the first time (`ready_atomic == 0`): register the
thread, set the counter to 1, start an inevitable transaction, return
token 1.  For an already-registered thread: only issue the
start-inevitable-if-not-atomic call and return token 0.
The helpers `pypy_stm_register_thread_local` and
`pypy_stm_start_inevitable_if_not_atomic` are declared in headers
outside src/; following the spec (sections 4.5 and 8, which state the
token 0 round trip is a no-op with respect to mode and budget) they
are modelled as engine events that leave the thread-local fields
unchanged.  Returns (state, token, events). -/
def pypy_stm_enter_callback_call (s : TState) : TState × Int × List Ev :=
  if s.ready_atomic = 0 then
    ({ s with ready_atomic := 1 }, 1, [Ev.registerThread, Ev.startInevitableIfNotAtomic])
  else
    (s, 0, [Ev.startInevitableIfNotAtomic])

/-- Function `pypy_stm_leave_callback_call` (lines 111-127).  With
token 1: set `pypy_stm_ready_atomic` to 1 (ignoring any atomic depth),
call `stm_commit_transaction()` unconditionally (recorded as
`commitAt 1`), set `pypy_stm_ready_atomic` to 0 and unregister the
thread.  With any other token: call `pypy_stm_commit_if_not_atomic()`,
a header helper modelled from the spec (section 4.5: the token 0 path
re-applies the end-voluntarily-if-not-atomic check without touching
mode or budget) as an engine event leaving the fields unchanged. -/
def pypy_stm_leave_callback_call (s : TState) (token : Int) : TState × List Ev :=
  if token = 1 then
    let s1 : TState := { s with ready_atomic := 1 }
    let s2 : TState := { s1 with ready_atomic := 0 }
    (s2, [Ev.commitAt s1.ready_atomic, Ev.unregisterThread])
  else
    (s, [Ev.commitIfNotAtomic])

/-- Loop of `pypy_stm_perform_transaction` (lines 183-217), modelled
for a thread that is never in atomic mode and whose transactions never
abort, so that every round takes the commit-and-restart branch
(`pypy_stm_should_break_transaction` is a header helper; per spec
section 4.4 it holds exactly when the thread is not inside an atomic
section).  Each round reads `counter = v_counter`, performs one
commit/begin cycle (`pypy_stm_start_transaction` sets `v_counter` to
`counter + 1`, observable only after an abort), invokes the callback
with `counter`, exits when the result is nonpositive and otherwise
resets `v_counter` to 0 for the next round.  The callback is given the
index of the call so that a test scenario can vary its return value;
the result is (counters passed to the callback, number of
commit/begin cycles, final callback outcome if the fuel sufficed). -/
def pypy_stm_perform_transaction (work : Nat → Int → Int) :
    Nat → Int → Nat → List Int × Nat × Option Int
  | 0, _, _ => ([], 0, none)
  | fuel + 1, v_counter, idx =>
    let counter : Int := v_counter
    let result : Int := work idx counter
    if result ≤ 0 then ([counter], 1, some result)
    else
      let rest := pypy_stm_perform_transaction work fuel 0 (idx + 1)
      (counter :: rest.1, rest.2.1 + 1, rest.2.2)

/-- Exit path of `pypy_stm_perform_transaction` (lines 219-227): when
the jmpbuf of the just-exited transaction is still the active resume
point of the engine segment, call `_stm_become_inevitable` with the
message written at line 226; otherwise do nothing. -/
def pypy_stm_perform_transaction_exit (jmpbuf_active : Bool) : List Ev :=
  if jmpbuf_active then
    [Ev.becomeInevitable ("perform_transaction left with inevitable")]
  else []

/-- Modelled from the spec: the enter-atomic helper (declared in
headers outside src/).  Spec section 4.1: increments the depth; on the
0 to 1 depth transition (counter 1 to 2) saves the budget into the
saved slot and sets the budget to the unlimited sentinel. -/
def enter_atomic (s : TState) : TState :=
  if s.ready_atomic = 1 then
    { s with ready_atomic := 2,
             low_fill_mark_saved := s.low_fill_mark,
             low_fill_mark := sentinel }
  else { s with ready_atomic := s.ready_atomic + 1 }

/-- Modelled from the spec: the leave-atomic helper (declared in
headers outside src/).  Spec section 4.1: decrements the depth; on the
1 to 0 depth transition (counter 2 to 1) restores the budget from the
saved slot. -/
def leave_atomic (s : TState) : TState :=
  if s.ready_atomic = 2 then
    { s with ready_atomic := 1, low_fill_mark := s.low_fill_mark_saved }
  else { s with ready_atomic := s.ready_atomic - 1 }

/-- One controller operation on the thread state, for the invariant of
claim C10: the operations of stmgcintf.c that run between registration
and deregistration of a thread, plus the spec-modelled atomic
enter/leave helpers (guarded by their spec preconditions: entering
requires a registered thread, leaving requires positive depth). -/
inductive Step : TState → TState → Prop where
  | start_transaction (s : TState) (v : Int) :
      Step s (pypy_stm_start_transaction s v).1
  | commit_soon (s : TState) : Step s (stmcb_commit_soon s)
  | inev_state (s : TState) : Step s (_pypy_stm_inev_state s)
  | become_inevitable (s : TState) (msg : Option String) :
      Step s (_pypy_stm_become_inevitable s msg).1
  | set_transaction_length (s : TState) (f : ℚ) :
      Step s (pypy_stm_set_transaction_length s f)
  | enter (s : TState) (h : 1 ≤ s.ready_atomic) : Step s (enter_atomic s)
  | leave (s : TState) (h : 2 ≤ s.ready_atomic) : Step s (leave_atomic s)

/-- Reachability by any number of controller operations. -/
def Reachable (s0 s : TState) : Prop := Relation.ReflTransGen Step s0 s

/-- Invariant tying the mode counter to the nursery low fill mark: a
registered thread (counter at least 1) whose counter differs from 1 is
atomic and holds the unlimited sentinel in the fill mark. -/
def ModeBudgetInv (s : TState) : Prop :=
  1 ≤ s.ready_atomic ∧ (s.ready_atomic ≠ 1 → s.low_fill_mark = sentinel)

/-! Helper lemmas. -/

theorem toUptr_coe (x : Int) (h0 : 0 ≤ x) (h1 : x < 2 ^ 64) :
    ((toUptr x : Nat) : Int) = x := by
  unfold toUptr
  rw [Int.emod_eq_of_lt h0 h1, Int.toNat_of_nonneg h0]

theorem sar_nonneg (x : Int) (k : Nat) (h : 0 ≤ x) : 0 ≤ sar x k :=
  Int.ediv_nonneg h (by positivity)

theorem sar_le_self (x : Int) (k : Nat) (h : 0 ≤ x) : sar x k ≤ x :=
  Int.ediv_le_self _ h

theorem le_sar_of_nonpos (x : Int) (k : Nat) (h : x ≤ 0) : x ≤ sar x k := by
  rw [sar, Int.le_ediv_iff_mul_le (by positivity)]
  have h2 : (1 : Int) ≤ 2 ^ k := one_le_pow₀ (by norm_num)
  nlinarith

theorem sar_nonpos (x : Int) (k : Nat) (h : x ≤ 0) : sar x k ≤ 0 := by
  have h2 : (0 : Int) < 2 ^ k := by positivity
  have : sar x k < 1 := by
    rw [sar, Int.ediv_lt_iff_lt_mul h2]
    nlinarith
  omega

theorem shrink_step_pos (x : Int) (h : 0 < x) : 0 < shrink_step x := by
  have : sar x 4 < x := by
    rw [sar, Int.ediv_lt_iff_lt_mul (by norm_num)]
    nlinarith
  unfold shrink_step
  omega

theorem shrink_step_lt (x : Int) (h : 16 ≤ x) : shrink_step x < x := by
  have : (1 : Int) ≤ sar x 4 := by
    rw [sar, Int.le_ediv_iff_mul_le (by norm_num)]
    norm_num
    omega
  unfold shrink_step
  omega

theorem shrink_iter_pos (x : Int) (h : 0 < x) (n : Nat) : 0 < shrink_iter x n := by
  induction n with
  | zero => exact h
  | succ m ih => exact shrink_step_pos _ ih

theorem modeBudgetInv_inev (s : TState) (h : ModeBudgetInv s) :
    ModeBudgetInv (_pypy_stm_inev_state s) := by
  obtain ⟨h1, h2⟩ := h
  unfold ModeBudgetInv _pypy_stm_inev_state
  split_ifs with ha
  · exact ⟨by simpa using h1, by simp [ha]⟩
  · exact ⟨by simpa using h1, by simpa using h2⟩

theorem modeBudgetInv_step (s t : TState) (hst : Step s t)
    (h : ModeBudgetInv s) : ModeBudgetInv t := by
  obtain ⟨h1, h2⟩ := h
  cases hst with
  | start_transaction v =>
    refine ⟨?_, ?_⟩ <;>
      simp [pypy_stm_start_transaction, _pypy_stm_init_nursery_low_fill_mark]
  | commit_soon =>
    unfold ModeBudgetInv stmcb_commit_soon
    split_ifs with ha hb hc
    · exact ⟨by simpa using h1, by simpa using fun _ => ha⟩
    · exact ⟨h1, h2⟩
    · refine ⟨by simpa using h1, ?_⟩
      intro hne
      exact absurd (h2 (by simpa using hne)) ha
    · exact ⟨h1, h2⟩
  | inev_state => exact modeBudgetInv_inev s ⟨h1, h2⟩
  | become_inevitable msg => exact modeBudgetInv_inev s ⟨h1, h2⟩
  | set_transaction_length f =>
    unfold ModeBudgetInv pypy_stm_set_transaction_length
    exact ⟨by simpa using h1, by simpa using h2⟩
  | enter hge =>
    unfold ModeBudgetInv enter_atomic
    split_ifs with ha
    · exact ⟨by norm_num, by simp⟩
    · refine ⟨by simp; omega, ?_⟩
      intro _
      simpa using h2 ha
  | leave hge =>
    unfold ModeBudgetInv leave_atomic
    split_ifs with ha
    · exact ⟨by norm_num, by simp⟩
    · refine ⟨by simp; omega, ?_⟩
      intro _
      refine h2 ?_
      omega

theorem modeBudgetInv_reachable (s0 s : TState) (h0 : ModeBudgetInv s0)
    (h : Reachable s0 s) : ModeBudgetInv s := by
  induction h with
  | refl => exact h0
  | tail _ hbc ih => exact modeBudgetInv_step _ _ hbc ih

theorem toSigned_of_lt (x : Nat) (h : x < 2 ^ 63) : toSigned x = (x : Int) := by
  unfold toSigned
  rw [if_pos h]

theorem margin_shrink_range (a b : Nat) (ha : a < 2 ^ 63) (hb : b < 2 ^ 63) :
    0 ≤ (a : Int) + sar ((b : Int) - (a : Int)) 2
    ∧ (a : Int) + sar ((b : Int) - (a : Int)) 2 < 2 ^ 64 := by
  have hna : (0 : Int) ≤ (a : Int) := Int.natCast_nonneg a
  have hnb : (0 : Int) ≤ (b : Int) := Int.natCast_nonneg b
  have hca : (a : Int) < 2 ^ 63 := by exact_mod_cast ha
  have hcb : (b : Int) < 2 ^ 63 := by exact_mod_cast hb
  rcases le_or_lt 0 ((b : Int) - (a : Int)) with hpos | hneg
  · have h1 := sar_nonneg ((b : Int) - (a : Int)) 2 hpos
    have h2 := sar_le_self ((b : Int) - (a : Int)) 2 hpos
    constructor
    · linarith
    · have : (2 : Int) ^ 63 < 2 ^ 64 := by norm_num
      linarith
  · have h1 := le_sar_of_nonpos ((b : Int) - (a : Int)) 2 (le_of_lt hneg)
    have h2 := sar_nonpos ((b : Int) - (a : Int)) 2 (le_of_lt hneg)
    constructor
    · linarith
    · have : (2 : Int) ^ 63 < 2 ^ 64 := by norm_num
      linarith

/-! Claim theorems. -/

/-- Claim C1: for every invocation of the budget computation for a
freshly (re)started transaction, an attempt counter of 0 uses the
configured transaction length as the limit, a positive attempt counter
uses last_abort_bytes_consumed minus (last_abort_bytes_consumed >> 4),
and the nursery low fill mark becomes the arena start plus that limit
(stated under the no-overflow hypotheses that make the `uintptr_t`
addition exact). -/
theorem claim_C1 (s : TState) (v : Int)
    (h0 : 0 ≤ (s.nursery_start : Int) +
      (if v = 0 then s.transaction_length else shrink_step s.last_abort_bytes))
    (h1 : (s.nursery_start : Int) +
      (if v = 0 then s.transaction_length else shrink_step s.last_abort_bytes) < 2 ^ 64) :
    (((_pypy_stm_init_nursery_low_fill_mark s v).low_fill_mark : Int)
        = (s.nursery_start : Int) +
          (if v = 0 then s.transaction_length else shrink_step s.last_abort_bytes))
    ∧ (v = 0 →
        (if v = 0 then s.transaction_length else shrink_step s.last_abort_bytes)
          = s.transaction_length)
    ∧ (0 < v →
        (if v = 0 then s.transaction_length else shrink_step s.last_abort_bytes)
          = s.last_abort_bytes - sar s.last_abort_bytes 4)
    ∧ (pypy_stm_start_transaction s v).1.low_fill_mark
        = (_pypy_stm_init_nursery_low_fill_mark s v).low_fill_mark := by
  refine ⟨?_, ?_, ?_, ?_⟩
  · unfold _pypy_stm_init_nursery_low_fill_mark
    exact toUptr_coe _ h0 h1
  · intro hv
    rw [if_pos hv]
  · intro hv
    rw [if_neg (by omega)]
    rfl
  · rfl

theorem claim_C1_witness :
    ((_pypy_stm_init_nursery_low_fill_mark ⟨1, 0, 0, 100000, 5000, 2000, 4194304⟩
        1).low_fill_mark : Int)
      = ((2000 : Nat) : Int) + (if (1 : Int) = 0 then (100000 : Int) else shrink_step 5000) :=
  (claim_C1 ⟨1, 0, 0, 100000, 5000, 2000, 4194304⟩ 1 (by decide) (by decide)).1

/-- Claim C2, counterexample: the claim asserts a strict decrease of
the retry shrink step for every non-negative starting value, but for
the starting value 10 (non-negative) the step is the identity, since
10 >> 4 is 0. -/
theorem claim_C2_counterexample :
    (0 : Int) ≤ 10 ∧ ¬ shrink_iter 10 1 < shrink_iter 10 0 := by decide

/-- Claim C2, amended: for every positive starting value the iterated
retry shrink step never reaches zero; a step strictly decreases the
value whenever the current value is at least 16 (values below 16 are
fixed points, so the strict decrease fails for small starts such as
10); in particular, starting from the default configured length 400000
each of the first 50 simulated aborts strictly decreases the limit. -/
theorem claim_C2 (v : Int) (n : Nat) (hv : 0 < v) :
    0 < shrink_iter v n
    ∧ (16 ≤ shrink_iter v n → shrink_iter v (n + 1) < shrink_iter v n)
    ∧ (∀ i : Nat, i < 50 → shrink_iter 400000 (i + 1) < shrink_iter 400000 i) := by
  refine ⟨shrink_iter_pos v hv n, fun h => shrink_step_lt _ h, ?_⟩
  decide

theorem claim_C2_witness :
    0 < shrink_iter 400000 1 ∧ shrink_iter 400000 2 < shrink_iter 400000 1 := by
  obtain ⟨hp, hd, _⟩ := claim_C2 400000 1 (by decide)
  exact ⟨hp, hd (by decide)⟩

/-- Claim C3: for every fraction in [0, 1], the configured transaction
length is non-negative and at most 3/4 of the young-arena capacity
(the double arithmetic of the C code is modelled exactly over the
rationals). -/
theorem claim_C3 (s : TState) (f : ℚ) (h0 : 0 ≤ f) (h1 : f ≤ 1) :
    0 ≤ (pypy_stm_set_transaction_length s f).transaction_length
    ∧ ((pypy_stm_set_transaction_length s f).transaction_length : ℚ)
        ≤ 3 / 4 * (s.nursery_size : ℚ) := by
  have hlow0 : 0 ≤ ratTrunc ((LOW_FILL_MARK : ℚ) * f) := by
    unfold ratTrunc
    apply Int.tdiv_nonneg
    · rw [Rat.num_nonneg]
      have hL : (0 : ℚ) ≤ (LOW_FILL_MARK : ℚ) := by norm_num [LOW_FILL_MARK]
      exact mul_nonneg hL h0
    · exact Int.natCast_nonneg _
  have hcap : (0 : Int) ≤ ((s.nursery_size * 3 / 4 : Nat) : Int) := Int.natCast_nonneg _
  have hself : (pypy_stm_set_transaction_length s f).transaction_length
      = if ((s.nursery_size * 3 / 4 : Nat) : Int) < ratTrunc ((LOW_FILL_MARK : ℚ) * f)
        then ((s.nursery_size * 3 / 4 : Nat) : Int)
        else ratTrunc ((LOW_FILL_MARK : ℚ) * f) := rfl
  have hkey : (pypy_stm_set_transaction_length s f).transaction_length
      ≤ ((s.nursery_size * 3 / 4 : Nat) : Int) := by
    rw [hself]
    split_ifs with h
    · exact le_refl _
    · exact le_of_not_lt h
  constructor
  · rw [hself]
    split_ifs with h
    · exact hcap
    · exact hlow0
  · have hq1 : ((pypy_stm_set_transaction_length s f).transaction_length : ℚ)
        ≤ (((s.nursery_size * 3 / 4 : Nat) : Int) : ℚ) := Int.cast_le.mpr hkey
    have hq2 : (((s.nursery_size * 3 / 4 : Nat) : Int) : ℚ)
        = ((s.nursery_size * 3 / 4 : Nat) : ℚ) := Int.cast_natCast _
    have hq3 : ((s.nursery_size * 3 / 4 : Nat) : ℚ)
        ≤ ((s.nursery_size * 3 : Nat) : ℚ) / ((4 : Nat) : ℚ) :=
      @Nat.cast_div_le ℚ _ (s.nursery_size * 3) 4
    have hq4 : ((s.nursery_size * 3 : Nat) : ℚ) / ((4 : Nat) : ℚ)
        = 3 / 4 * (s.nursery_size : ℚ) := by push_cast; ring
    linarith


theorem claim_C3_witness :
    0 ≤ (pypy_stm_set_transaction_length ⟨1, 0, 0, 0, 0, 2000, 4194304⟩
          (1 / 2)).transaction_length
    ∧ ((pypy_stm_set_transaction_length ⟨1, 0, 0, 0, 0, 2000, 4194304⟩
          (1 / 2)).transaction_length : ℚ)
        ≤ 3 / 4 * (((4194304 : Nat)) : ℚ) :=
  claim_C3 ⟨1, 0, 0, 0, 0, 2000, 4194304⟩ (1 / 2) (by norm_num) (by norm_num)

/-- Claim C4: the commit-soon pressure callback forces the active fill
mark to 0 when it is budgeted (not the unlimited sentinel) and
positive as a signed long, leaving the saved fill mark and the mode
counter alone; when the active fill mark is the unlimited sentinel
(atomic) it instead clears the saved fill mark when that is positive,
and the active fill mark stays at the sentinel. -/
theorem claim_C4 (s : TState) :
    (s.low_fill_mark ≠ sentinel → 0 < toSigned s.low_fill_mark →
      (stmcb_commit_soon s).low_fill_mark = 0
      ∧ (stmcb_commit_soon s).low_fill_mark_saved = s.low_fill_mark_saved
      ∧ (stmcb_commit_soon s).ready_atomic = s.ready_atomic)
    ∧ (s.low_fill_mark = sentinel →
      (stmcb_commit_soon s).low_fill_mark = sentinel
      ∧ (0 < toSigned s.low_fill_mark_saved →
          (stmcb_commit_soon s).low_fill_mark_saved = 0)
      ∧ (¬ 0 < toSigned s.low_fill_mark_saved →
          (stmcb_commit_soon s).low_fill_mark_saved = s.low_fill_mark_saved)) := by
  unfold stmcb_commit_soon
  split_ifs with ha hb hc <;> simp_all

theorem claim_C4_witness :
    (stmcb_commit_soon ⟨1, 100, 7, 0, 0, 0, 0⟩).low_fill_mark = 0 :=
  ((claim_C4 ⟨1, 100, 7, 0, 0, 0, 0⟩).1 (by decide) (by decide)).1

/-- Claim C5: escalation to inevitable first shrinks the budget margin
above the arena start to a quarter of its previous value, applied to
the active fill mark when the mode counter is 1 and to the saved fill
mark otherwise, and `_pypy_stm_become_inevitable` performs exactly
this shrink before handing the given reason to the engine (range
hypotheses make the machine arithmetic exact). -/
theorem claim_C5 (s : TState) (r : String) (hstart : s.nursery_start < 2 ^ 63) :
    (s.ready_atomic = 1 → s.low_fill_mark < 2 ^ 63 →
      ((_pypy_stm_inev_state s).low_fill_mark : Int)
        = (s.nursery_start : Int)
          + sar ((s.low_fill_mark : Int) - (s.nursery_start : Int)) 2
      ∧ (_pypy_stm_inev_state s).low_fill_mark_saved = s.low_fill_mark_saved)
    ∧ (s.ready_atomic ≠ 1 → s.low_fill_mark_saved < 2 ^ 63 →
      ((_pypy_stm_inev_state s).low_fill_mark_saved : Int)
        = (s.nursery_start : Int)
          + sar ((s.low_fill_mark_saved : Int) - (s.nursery_start : Int)) 2
      ∧ (_pypy_stm_inev_state s).low_fill_mark = s.low_fill_mark)
    ∧ _pypy_stm_become_inevitable s (some r) = (_pypy_stm_inev_state s, r) := by
  refine ⟨fun hr hf => ?_, fun hr hf => ?_, rfl⟩
  · unfold _pypy_stm_inev_state
    rw [if_pos hr]
    refine ⟨?_, rfl⟩
    show ((toUptr ((s.nursery_start : Int)
      + sar (toSigned s.low_fill_mark - toSigned s.nursery_start) 2) : Nat) : Int) = _
    rw [toSigned_of_lt _ hf, toSigned_of_lt _ hstart]
    exact toUptr_coe _ (margin_shrink_range _ _ hstart hf).1
      (margin_shrink_range _ _ hstart hf).2
  · unfold _pypy_stm_inev_state
    rw [if_neg hr]
    refine ⟨?_, rfl⟩
    show ((toUptr ((s.nursery_start : Int)
      + sar (toSigned s.low_fill_mark_saved - toSigned s.nursery_start) 2) : Nat) : Int) = _
    rw [toSigned_of_lt _ hf, toSigned_of_lt _ hstart]
    exact toUptr_coe _ (margin_shrink_range _ _ hstart hf).1
      (margin_shrink_range _ _ hstart hf).2

theorem claim_C5_witness :
    ((_pypy_stm_inev_state ⟨1, 6688, 5, 0, 0, 2000, 0⟩).low_fill_mark : Int)
      = (((2000 : Nat)) : Int) + sar ((((6688 : Nat)) : Int) - (((2000 : Nat)) : Int)) 2 :=
  (((claim_C5 ⟨1, 6688, 5, 0, 0, 2000, 0⟩ ("x") (by decide)).1 rfl (by decide))).1

/-- Claim C6: in the retry loop a nonpositive callback outcome exits
the loop with that outcome after the single commit/begin cycle of the
round, a positive outcome resets the attempt counter to 0 for the next
round, and in the concrete scenario where the callback returns 1
exactly twice and then 0 there are exactly 3 commit/begin cycles with
the callback seeing attempt counter 0 each time. -/
theorem claim_C6 :
    (∀ (work : Nat → Int → Int) (fuel : Nat) (v : Int) (idx : Nat),
        work idx v ≤ 0 →
        pypy_stm_perform_transaction work (fuel + 1) v idx
          = ([v], 1, some (work idx v)))
    ∧ (∀ (work : Nat → Int → Int) (fuel : Nat) (v : Int) (idx : Nat),
        0 < work idx v →
        pypy_stm_perform_transaction work (fuel + 1) v idx
          = (v :: (pypy_stm_perform_transaction work fuel 0 (idx + 1)).1,
             (pypy_stm_perform_transaction work fuel 0 (idx + 1)).2.1 + 1,
             (pypy_stm_perform_transaction work fuel 0 (idx + 1)).2.2))
    ∧ pypy_stm_perform_transaction (fun idx _ => if idx < 2 then (1 : Int) else 0) 10 0 0
        = ([0, 0, 0], 3, some 0) := by
  refine ⟨?_, ?_, ?_⟩
  · intro work fuel v idx h
    simp [pypy_stm_perform_transaction, h]
  · intro work fuel v idx h
    have hn : ¬ work idx v ≤ 0 := by omega
    simp [pypy_stm_perform_transaction, hn]
  · decide

theorem claim_C6_witness :
    pypy_stm_perform_transaction (fun _ _ => (0 : Int)) 1 5 0 = ([5], 1, some 0) :=
  claim_C6.1 (fun _ _ => (0 : Int)) 0 5 0 (by decide)

/-- Claim C7, counterexample: on loop exit with the jmpbuf still the
active resume point, the escalation reason emitted by the code is the
string written at line 226 of stmgcintf.c, not the reason
"perform_transaction exiting" stated by the claim. -/
theorem claim_C7_counterexample :
    pypy_stm_perform_transaction_exit true
      ≠ [Ev.becomeInevitable ("perform_transaction exiting")] := by decide

/-- Claim C7, amended: on exit of the retry loop, if the just-exited
transaction is still bound to the loop jmpbuf, the code escalates it
to inevitable — with reason "perform_transaction left with
inevitable" — instead of committing it, so the function never returns
leaving a non-inevitable transaction whose resume point dangles into
the returned-from frame; nothing is emitted otherwise. -/
theorem claim_C7 :
    pypy_stm_perform_transaction_exit true
      = [Ev.becomeInevitable ("perform_transaction left with inevitable")]
    ∧ pypy_stm_perform_transaction_exit false = [] := by decide

/-- Claim C8: for an already-registered thread the enter call returns
token 0 and leaves the thread state unchanged, and the leave call with
token 0 only issues the conditional commit-if-not-atomic check —
leaving mode and budget unchanged — so the enter/leave round trip is a
no-op on the thread state. -/
theorem claim_C8 (s : TState) (h : s.ready_atomic ≠ 0) :
    (pypy_stm_enter_callback_call s).2.1 = 0
    ∧ (pypy_stm_enter_callback_call s).1 = s
    ∧ (pypy_stm_leave_callback_call (pypy_stm_enter_callback_call s).1 0).1 = s
    ∧ (pypy_stm_leave_callback_call s 0).2 = [Ev.commitIfNotAtomic] := by
  simp [pypy_stm_enter_callback_call, pypy_stm_leave_callback_call, h]

theorem claim_C8_witness :
    (pypy_stm_enter_callback_call ⟨1, 42, 9, 100, 0, 17, 64⟩).2.1 = 0
    ∧ (pypy_stm_enter_callback_call ⟨1, 42, 9, 100, 0, 17, 64⟩).1
        = ⟨1, 42, 9, 100, 0, 17, 64⟩
    ∧ (pypy_stm_leave_callback_call
        (pypy_stm_enter_callback_call ⟨1, 42, 9, 100, 0, 17, 64⟩).1 0).1
        = ⟨1, 42, 9, 100, 0, 17, 64⟩
    ∧ (pypy_stm_leave_callback_call ⟨1, 42, 9, 100, 0, 17, 64⟩ 0).2
        = [Ev.commitIfNotAtomic] :=
  claim_C8 ⟨1, 42, 9, 100, 0, 17, 64⟩ (by decide)

/-- Recognizer for become-inevitable engine requests among the emitted
events. -/
def isBecomeInevitable : Ev → Bool
  | Ev.becomeInevitable _ => true
  | _ => false

/-- Claim C9, counterexample: leaving a foreign call with token 1 on a
thread at atomic depth 2 (mode counter 3) issues no become-inevitable
request at all: the emitted engine events are exactly an unconditional
commit with the mode counter forced to 1 (normal mode, not inevitable)
followed by deregistration, so the claim that inevitable mode is
forced fails. -/
theorem claim_C9_counterexample :
    (pypy_stm_leave_callback_call ⟨3, 500, 200, 100, 50, 10, 1000⟩ 1).2
      = [Ev.commitAt 1, Ev.unregisterThread]
    ∧ ((pypy_stm_leave_callback_call ⟨3, 500, 200, 100, 50, 10, 1000⟩ 1).2.all
        fun e => ! isBecomeInevitable e)
    ∧ (pypy_stm_leave_callback_call ⟨3, 500, 200, 100, 50, 10, 1000⟩ 1).1.ready_atomic
        = 0 := by decide

/-- Claim C9, amended: when leave_foreign_call is called with token 1,
it forces normal (non-atomic) mode — the unconditional commit is
issued with the mode counter set to 1 regardless of the previous
atomic status — and then deregisters the thread, leaving the mode
counter 0 (the unregistered, uninitialized state); no become-inevitable
request is issued. -/
theorem claim_C9 (s : TState) :
    pypy_stm_leave_callback_call s 1
      = ({ s with ready_atomic := 0 }, [Ev.commitAt 1, Ev.unregisterThread]) := rfl

/-- Claim C10: in the controller transition system started from a
registered thread in normal mode (mode counter 1), every reachable
state whose mode counter differs from 1 — in particular the states
inspected by the escalation shrink and by the perform-transaction
loop exit — holds the unlimited sentinel (uintptr_t)-1 in the nursery
low fill mark; equivalently, a budgeted fill mark implies normal,
non-atomic mode. -/
theorem claim_C10 (s0 s : TState) (h0 : s0.ready_atomic = 1)
    (h : Reachable s0 s) (hne : s.ready_atomic ≠ 1) :
    s.low_fill_mark = sentinel :=
  (modeBudgetInv_reachable s0 s ⟨le_of_eq h0.symm, fun hn => absurd h0 hn⟩ h).2 hne

theorem claim_C10_witness :
    (enter_atomic ⟨1, 5, 7, 100, 0, 1000, 4096⟩).low_fill_mark = sentinel :=
  claim_C10 ⟨1, 5, 7, 100, 0, 1000, 4096⟩ _ rfl
    (Relation.ReflTransGen.single (Step.enter _ (by decide)))
    (by decide)

end StmGcIntf
